import Mathlib

/-!
Shallow embedding of `modules/healthcare/utils/update_collection.py`.

The script loads a Postman collection (a JSON document), walks its tree of
items with `update_requests`, patching the bodies of four requests matched
by name, then inserts a fixed "Seeded Data Tests" folder at the front of
the top-level item list, and finally writes the document back.

JSON dictionaries are embedded as Lean structures whose optional keys are
`Option` fields; the tree of items is the nested inductive `Item`.
-/

/-- The `script` object inside an `event` entry (keys `exec`, `type`). -/
structure Script where
  exec : List String
  type : String
deriving DecidableEq, Repr

/-- An entry of an item's `event` list (keys `listen`, `script`). -/
structure Event where
  listen : String
  script : Script
deriving DecidableEq, Repr

/-- An entry of a request's `header` list (keys `key`, `value`). -/
structure Header where
  key : String
  value : String
deriving DecidableEq, Repr

/-- The `url` object of a request (keys `raw`, `host`, `path`). -/
structure Url where
  raw : String
  host : List String
  path : List String
deriving DecidableEq, Repr

/-- The `body` object of a request; the `raw` key may be absent
(`update_requests` tests `'raw' in request['body']`). -/
structure Body where
  mode : Option String
  raw : Option String
deriving DecidableEq, Repr

/-- The `request` object of an item.  The keys read or written by the
script (`body`, `description`) may be absent, hence `Option`. -/
structure Request where
  method : Option String
  header : Option (List Header)
  body : Option Body
  url : Option Url
  description : Option String
deriving DecidableEq, Repr

/-- A node of the collection tree: a dictionary that may carry a `name`,
an `event` list, a `request` object, a `response` list and a nested
`item` list.  `update_requests` treats a node with an `item` key as a
folder and a node with a `request` key (and no `item` key) as a request. -/
inductive Item : Type where
  | mk (name : Option String) (event : Option (List Event))
      (request : Option Request) (response : Option (List Unit))
      (item : Option (List Item)) : Item

mutual

/-- Hand-rolled decidable equality on items (the nested inductive defeats
`deriving`). -/
def decEqItem : (a b : Item) → Decidable (a = b)
  | .mk n₁ e₁ r₁ p₁ c₁, .mk n₂ e₂ r₂ p₂ c₂ =>
    match decEqOptListItem c₁ c₂ with
    | Decidable.isFalse h =>
      Decidable.isFalse (fun hh => h (by injection hh))
    | Decidable.isTrue hc =>
      if h : n₁ = n₂ ∧ e₁ = e₂ ∧ r₁ = r₂ ∧ p₁ = p₂ then
        Decidable.isTrue (by
          obtain ⟨h1, h2, h3, h4⟩ := h
          rw [h1, h2, h3, h4, hc])
      else
        Decidable.isFalse (fun hh => by
          injection hh with hn he hr hp _
          exact h ⟨hn, he, hr, hp⟩)

/-- Decidable equality on optional nested item lists. -/
def decEqOptListItem : (a b : Option (List Item)) → Decidable (a = b)
  | none, none => Decidable.isTrue rfl
  | none, some _ => Decidable.isFalse (fun h => by cases h)
  | some _, none => Decidable.isFalse (fun h => by cases h)
  | some xs, some ys =>
    match decEqListItem xs ys with
    | Decidable.isTrue h => Decidable.isTrue (by rw [h])
    | Decidable.isFalse h =>
      Decidable.isFalse (fun hh => h (Option.some.inj hh))

/-- Decidable equality on item lists. -/
def decEqListItem : (a b : List Item) → Decidable (a = b)
  | [], [] => Decidable.isTrue rfl
  | [], _ :: _ => Decidable.isFalse (fun h => by cases h)
  | _ :: _, [] => Decidable.isFalse (fun h => by cases h)
  | x :: xs, y :: ys =>
    match decEqItem x y, decEqListItem xs ys with
    | Decidable.isTrue h1, Decidable.isTrue h2 => Decidable.isTrue (by rw [h1, h2])
    | Decidable.isFalse h1, _ =>
      Decidable.isFalse (fun hh => h1 (by injection hh))
    | _, Decidable.isFalse h2 =>
      Decidable.isFalse (fun hh => h2 (by injection hh))

end

instance : DecidableEq Item := decEqItem

/-- The `name` key of an item (absent names are `none`). -/
def Item.name : Item → Option String
  | .mk n _ _ _ _ => n

/-- The `event` key of an item. -/
def Item.event : Item → Option (List Event)
  | .mk _ e _ _ _ => e

/-- The `request` key of an item. -/
def Item.request : Item → Option Request
  | .mk _ _ r _ _ => r

/-- The `response` key of an item. -/
def Item.response : Item → Option (List Unit)
  | .mk _ _ _ resp _ => resp

/-- The nested `item` key of an item (present exactly for folders). -/
def Item.item : Item → Option (List Item)
  | .mk _ _ _ _ i => i

/-- The collection document; the script only reads and rewrites its
top-level `item` list. -/
structure Document where
  item : List Item
deriving DecidableEq

/-- Body literal written to "Register User - Success". -/
def regSuccessRaw : String :=
  "\x7b\n  \"id\": \"test.user\",\n  \"password\": \"TestPass123!\",\n  \"name\": \"Test User\"\n\x7d"

/-- Body literal written to "Register User - Duplicate ID". -/
def dupIdRaw : String :=
  "\x7b\n  \"id\": \"john.doe\",\n  \"password\": \"password123\",\n  \"name\": \"John Doe Duplicate\"\n\x7d"

/-- Description literal written to "Register User - Duplicate ID". -/
def dupIdDescription : String :=
  "Try to register with duplicate user ID (john.doe already exists in seed data)"

/-- Body literal written to "Login - Success". -/
def loginSuccessRaw : String :=
  "\x7b\n  \"id\": \"john.doe\",\n  \"password\": \"password123\"\n\x7d"

/-- Body literal written to "Login - Invalid Credentials". -/
def loginInvalidRaw : String :=
  "\x7b\n  \"id\": \"john.doe\",\n  \"password\": \"WrongPassword\"\n\x7d"

/-- The guard `'body' in request and 'raw' in request['body']` that every
branch of `update_requests` checks before touching a request. -/
def hasRaw (req : Request) : Bool :=
  match req.body with
  | some b => b.raw.isSome
  | none => false

/-- `request['body']['raw'] = s` (only ever used under `hasRaw`). -/
def setBodyRaw (req : Request) (s : String) : Request :=
  match req.body with
  | some b => { req with body := some { b with raw := some s } }
  | none => req

/-- The body of the request branch of `update_requests`: dispatch on the
item's name (`item.get('name', '')`) and patch the request in place.
Each branch is guarded by `hasRaw`; only the
"Register User - Duplicate ID" branch also sets
`request['description']`. -/
def patchRequest (n : String) (req : Request) : Request :=
  if n = "Register User - Success" then
    if hasRaw req then setBodyRaw req regSuccessRaw else req
  else if n = "Register User - Duplicate ID" then
    if hasRaw req then
      { setBodyRaw req dupIdRaw with description := some dupIdDescription }
    else req
  else if n = "Login - Success" then
    if hasRaw req then setBodyRaw req loginSuccessRaw else req
  else if n = "Login - Invalid Credentials" then
    if hasRaw req then setBodyRaw req loginInvalidRaw else req
  else req

mutual

/-- One step of `update_requests` on a single item: an item with an
`item` key is a folder and is recursed into (even when it also has a
`request` key); otherwise an item with a `request` key is patched by
name; anything else is untouched. -/
def updateItem : Item → Item
  | .mk n e r resp (some children) => .mk n e r resp (some (updateItems children))
  | .mk n e (some req) resp none =>
    .mk n e (some (patchRequest (n.getD "") req)) resp none
  | .mk n e none resp none => .mk n e none resp none

/-- `update_requests(items)`: the in-place loop over a list of items,
embedded as a map. -/
def updateItems : List Item → List Item
  | [] => []
  | i :: is => updateItem i :: updateItems is

end

/-- The `exec` lines of the response-test script attached to the two login
requests of the seeded folder: read `data.token` from the JSON response and
store it in the environment as `auth_token`. -/
def tokenScriptExec : List String :=
  ["var jsonData = pm.response.json();",
   "if (jsonData.data && jsonData.data.token) \x7b",
   "    pm.environment.set(\"auth_token\", jsonData.data.token);",
   "\x7d"]

/-- The single `event` entry carrying the token-extraction test script. -/
def tokenEvent : Event :=
  ⟨"test", ⟨tokenScriptExec, "text/javascript"⟩⟩

/-- The fixed "Seeded Data Tests" folder literal inserted at the front of
the collection's top-level item list (eight request items). -/
def seeded_data_folder : Item :=
  Item.mk (some "Seeded Data Tests") none none none (some
    [Item.mk (some "Login as john.doe") (some [tokenEvent])
      (some ⟨some "POST", some [⟨"Content-Type", "application/json"⟩],
        some ⟨some "raw",
          some "\x7b\n  \"id\": \"john.doe\",\n  \"password\": \"password123\"\n\x7d"⟩,
        some ⟨"\x7b\x7bbase_url\x7d\x7d/api/users/_login", ["\x7b\x7bbase_url\x7d\x7d"],
          ["api", "users", "_login"]⟩,
        some "Login with seeded user john.doe"⟩)
      (some []) none,
     Item.mk (some "Login as jane.smith") (some [tokenEvent])
      (some ⟨some "POST", some [⟨"Content-Type", "application/json"⟩],
        some ⟨some "raw",
          some "\x7b\n  \"id\": \"jane.smith\",\n  \"password\": \"SecurePass456!\"\n\x7d"⟩,
        some ⟨"\x7b\x7bbase_url\x7d\x7d/api/users/_login", ["\x7b\x7bbase_url\x7d\x7d"],
          ["api", "users", "_login"]⟩,
        some "Login with seeded user jane.smith"⟩)
      (some []) none,
     Item.mk (some "Get Seeded Contact - Alice Johnson") none
      (some ⟨some "GET", some [⟨"Authorization", "\x7b\x7bauth_token\x7d\x7d"⟩], none,
        some ⟨"\x7b\x7bbase_url\x7d\x7d/api/contacts/550e8400-e29b-41d4-a716-446655440001",
          ["\x7b\x7bbase_url\x7d\x7d"],
          ["api", "contacts", "550e8400-e29b-41d4-a716-446655440001"]⟩,
        some "Get Alice Johnson (seeded contact for john.doe)"⟩)
      (some []) none,
     Item.mk (some "Get Seeded Contact - Bob Williams") none
      (some ⟨some "GET", some [⟨"Authorization", "\x7b\x7bauth_token\x7d\x7d"⟩], none,
        some ⟨"\x7b\x7bbase_url\x7d\x7d/api/contacts/550e8400-e29b-41d4-a716-446655440002",
          ["\x7b\x7bbase_url\x7d\x7d"],
          ["api", "contacts", "550e8400-e29b-41d4-a716-446655440002"]⟩,
        some "Get Bob Williams (seeded contact for john.doe)"⟩)
      (some []) none,
     Item.mk (some "Get Seeded Contact - Charlie Brown") none
      (some ⟨some "GET", some [⟨"Authorization", "\x7b\x7bauth_token\x7d\x7d"⟩], none,
        some ⟨"\x7b\x7bbase_url\x7d\x7d/api/contacts/550e8400-e29b-41d4-a716-446655440003",
          ["\x7b\x7bbase_url\x7d\x7d"],
          ["api", "contacts", "550e8400-e29b-41d4-a716-446655440003"]⟩,
        some "Get Charlie Brown (seeded contact for john.doe)"⟩)
      (some []) none,
     Item.mk (some "List Addresses for Alice Johnson") none
      (some ⟨some "GET", some [⟨"Authorization", "\x7b\x7bauth_token\x7d\x7d"⟩], none,
        some ⟨"\x7b\x7bbase_url\x7d\x7d/api/contacts/550e8400-e29b-41d4-a716-446655440001/addresses",
          ["\x7b\x7bbase_url\x7d\x7d"],
          ["api", "contacts", "550e8400-e29b-41d4-a716-446655440001", "addresses"]⟩,
        some "List all addresses for Alice Johnson (should return 2 addresses)"⟩)
      (some []) none,
     Item.mk (some "Get Seeded Address - Alice\x27s NY Address") none
      (some ⟨some "GET", some [⟨"Authorization", "\x7b\x7bauth_token\x7d\x7d"⟩], none,
        some ⟨"\x7b\x7bbase_url\x7d\x7d/api/contacts/550e8400-e29b-41d4-a716-446655440001/addresses/660e8400-e29b-41d4-a716-446655440001",
          ["\x7b\x7bbase_url\x7d\x7d"],
          ["api", "contacts", "550e8400-e29b-41d4-a716-446655440001", "addresses",
           "660e8400-e29b-41d4-a716-446655440001"]⟩,
        some "Get Alice\x27s NY address (123 Main Street, New York)"⟩)
      (some []) none,
     Item.mk (some "Update Seeded Contact - Alice Johnson") none
      (some ⟨some "PUT",
        some [⟨"Authorization", "\x7b\x7bauth_token\x7d\x7d"⟩,
              ⟨"Content-Type", "application/json"⟩],
        some ⟨some "raw",
          some "\x7b\n  \"first_name\": \"Alice Updated\",\n  \"last_name\": \"Johnson Updated\",\n  \"email\": \"alice.updated@example.com\",\n  \"phone\": \"+1-555-9999\"\n\x7d"⟩,
        some ⟨"\x7b\x7bbase_url\x7d\x7d/api/contacts/550e8400-e29b-41d4-a716-446655440001",
          ["\x7b\x7bbase_url\x7d\x7d"],
          ["api", "contacts", "550e8400-e29b-41d4-a716-446655440001"]⟩,
        some "Update Alice Johnson\x27s information"⟩)
      (some []) none])

/-- The whole transformation of the script: run `update_requests` over the
top-level items, then `collection['item'].insert(0, seeded_data_folder)`. -/
def transform (d : Document) : Document :=
  ⟨seeded_data_folder :: updateItems d.item⟩

mutual

/-- All dictionary nodes of an item's tree, the item itself included
(every node `update_requests` ever looks at). -/
def allItems : Item → List Item
  | .mk n e r resp (some children) =>
    .mk n e r resp (some children) :: allItemsList children
  | .mk n e r resp none => [.mk n e r resp none]

/-- All dictionary nodes of a forest of items. -/
def allItemsList : List Item → List Item
  | [] => []
  | i :: is => allItems i ++ allItemsList is

end

/-- Shallow embedding of the script's top level and its error behaviour:
`json.load` either fails (`Except.error`, the exception propagates
unhandled and nothing further runs, so the file keeps its original
contents) or yields a document, which is fully transformed before
`json.dump` overwrites the file. -/
def runScript (parsed : Except String Document) (original : String)
    (ser : Document → String) : String :=
  match parsed with
  | .error _ => original
  | .ok d => ser (transform d)

/-! ### Supporting concrete data for counterexamples and witnesses -/

/-- A dispatch predicate: is this item the inserted folder by name? -/
def seededName (i : Item) : Bool := i.name == some "Seeded Data Tests"

/-- Does an item carry the token-extraction test script among its events? -/
def hasTokenScript (i : Item) : Bool :=
  match i.event with
  | some evs => evs.any (fun ev => ev.listen == "test" && ev.script.exec == tokenScriptExec)
  | none => false

/-- A duplicate-ID request with a description but no body at all. -/
def c2Req : Request := ⟨some "POST", none, none, none, some "old description"⟩

/-- The item wrapping `c2Req`, named for the duplicate-ID branch. -/
def c2Item : Item :=
  Item.mk (some "Register User - Duplicate ID") none (some c2Req) none none

/-- A document whose only item is the body-less duplicate-ID request. -/
def c2Doc : Document := ⟨[c2Item]⟩

/-- A duplicate-ID request that does have a body with `raw`. -/
def c2wReq : Request := ⟨some "POST", none, some ⟨some "raw", some "x"⟩, none, some "old"⟩

/-- A document whose only item is a patchable duplicate-ID request. -/
def c2wDoc : Document :=
  ⟨[Item.mk (some "Register User - Duplicate ID") none (some c2wReq) none none]⟩

/-- The body left behind by the duplicate-ID patch of `c2wReq`. -/
def c2wPostBody : Body := ⟨some "raw", some dupIdRaw⟩

/-- The request left behind by the duplicate-ID patch of `c2wReq`. -/
def c2wPostReq : Request :=
  ⟨some "POST", none, some c2wPostBody, none, some dupIdDescription⟩

/-- The item of `c2wDoc` after transformation. -/
def c2wPost : Item :=
  Item.mk (some "Register User - Duplicate ID") none (some c2wPostReq) none none

/-- A register-success request with a body with `raw`. -/
def c3Req : Request :=
  ⟨some "POST", none, some ⟨some "raw", some "\x7b\x7d"⟩, none, none⟩

/-- A document whose only item is a patchable register-success request. -/
def c3Doc : Document :=
  ⟨[Item.mk (some "Register User - Success") none (some c3Req) none none]⟩

/-- The body left behind by the register-success patch of `c3Req`. -/
def c3PostBody : Body := ⟨some "raw", some regSuccessRaw⟩

/-- The request left behind by the register-success patch of `c3Req`. -/
def c3PostReq : Request := ⟨some "POST", none, some c3PostBody, none, none⟩

/-- The item of `c3Doc` after transformation. -/
def c3Post : Item :=
  Item.mk (some "Register User - Success") none (some c3PostReq) none none

/-- A request whose name matches none of the four dispatch names. -/
def c4Req : Request :=
  ⟨some "POST", none, some ⟨some "raw", some "\x7b\x7d"⟩, none, some "logout request"⟩

/-- The item wrapping `c4Req`. -/
def c4Item : Item := Item.mk (some "Logout") none (some c4Req) none none

/-- A matching-named request lacking a body. -/
def c7Req : Request := ⟨some "POST", none, none, none, none⟩

/-- The item wrapping `c7Req`, named for the login-success branch. -/
def c7Item : Item := Item.mk (some "Login - Success") none (some c7Req) none none

/-- The four dispatch names of `update_requests`. -/
def targetNames : List String :=
  ["Register User - Success", "Register User - Duplicate ID", "Login - Success",
   "Login - Invalid Credentials"]

/-- A nameless folder containing a patchable "Login - Success" request. -/
def c10Folder : Item :=
  Item.mk none none none none (some
    [Item.mk (some "Login - Success") none
      (some ⟨some "POST", none, some ⟨some "raw", some "old"⟩, none, none⟩) none none])

/-! ### Helper lemmas about the walker -/

/-- The walker never changes an item's name. -/
theorem updateItem_name (i : Item) : (updateItem i).name = i.name := by
  cases i with
  | mk n e r resp c => cases c <;> cases r <;> simp [updateItem, Item.name]

/-- The walker never changes the length of an item list. -/
theorem updateItems_length : ∀ l : List Item, (updateItems l).length = l.length
  | [] => rfl
  | i :: is => by simp [updateItems, updateItems_length is]

/-- The walker is an index-wise map over an item list. -/
theorem updateItems_getElem? :
    ∀ (l : List Item) (j : Nat), (updateItems l)[j]? = l[j]?.map updateItem
  | [], _ => by simp [updateItems]
  | i :: is, 0 => by simp [updateItems]
  | i :: is, j + 1 => by
      simpa [updateItems] using updateItems_getElem? is j

/-- The walker preserves any count that only looks at names. -/
theorem countP_updateItems (p : Item → Bool) (hp : ∀ i, p (updateItem i) = p i) :
    ∀ l : List Item, (updateItems l).countP p = l.countP p
  | [] => rfl
  | i :: is => by
      simp [updateItems, List.countP_cons, countP_updateItems p hp is, hp i]

/-- The fixed seeded folder is a fixpoint of the walker (none of its eight
requests carries one of the four patched names). -/
theorem updateItem_seeded : updateItem seeded_data_folder = seeded_data_folder := by
  decide

/-- A name that matches none of the four literals leaves the request
untouched. -/
theorem patchRequest_nonmatch (n : String) (req : Request)
    (h1 : n ≠ "Register User - Success")
    (h2 : n ≠ "Register User - Duplicate ID")
    (h3 : n ≠ "Login - Success")
    (h4 : n ≠ "Login - Invalid Credentials") :
    patchRequest n req = req := by
  unfold patchRequest
  rw [if_neg h1, if_neg h2, if_neg h3, if_neg h4]

/-- A request whose guard `'body' in request and 'raw' in request['body']`
fails is untouched, whatever the name. -/
theorem patchRequest_noRaw (n : String) (req : Request)
    (h : hasRaw req = false) : patchRequest n req = req := by
  simp [patchRequest, h]

/-- A missing body, or a body without a `raw` key, falsifies the guard. -/
theorem hasRaw_eq_false (req : Request)
    (h : req.body = none ∨ ∃ b, req.body = some b ∧ b.raw = none) :
    hasRaw req = false := by
  rcases h with h | ⟨b, hb, hraw⟩
  · simp [hasRaw, h]
  · simp [hasRaw, hb, hraw]

/-- Whatever `setBodyRaw` leaves in the `raw` slot is the new string. -/
theorem setBodyRaw_raw (req : Request) (newRaw : String) (b : Body) (s : String)
    (hb : (setBodyRaw req newRaw).body = some b) (hs : b.raw = some s) :
    s = newRaw := by
  cases hbody : req.body with
  | none => simp [setBodyRaw, hbody] at hb
  | some b₀ =>
    simp [setBodyRaw, hbody] at hb
    subst hb
    simpa using hs.symm

/-- What `patchRequest` guarantees about the `raw` text it leaves behind,
for each of the four dispatch names. -/
theorem patchRequest_raw (n : String) (req : Request) (b : Body) (s : String)
    (hb : (patchRequest n req).body = some b) (hs : b.raw = some s) :
    (n = "Register User - Success" → s = regSuccessRaw) ∧
    (n = "Register User - Duplicate ID" →
      s = dupIdRaw ∧ (patchRequest n req).description = some dupIdDescription) ∧
    (n = "Login - Success" → s = loginSuccessRaw) ∧
    (n = "Login - Invalid Credentials" → s = loginInvalidRaw) := by
  cases hg : hasRaw req with
  | false =>
    rw [patchRequest_noRaw n req hg] at hb
    have : hasRaw req = true := by simp [hasRaw, hb, hs]
    rw [this] at hg
    cases hg
  | true =>
    refine ⟨?_, ?_, ?_, ?_⟩ <;> intro hn <;> subst hn
    · have e1 : patchRequest "Register User - Success" req =
          setBodyRaw req regSuccessRaw := by
        unfold patchRequest; rw [if_pos rfl, if_pos hg]
      rw [e1] at hb
      exact setBodyRaw_raw req _ b s hb hs
    · have e2 : patchRequest "Register User - Duplicate ID" req =
          { setBodyRaw req dupIdRaw with description := some dupIdDescription } := by
        unfold patchRequest; rw [if_neg (by decide), if_pos rfl, if_pos hg]
      refine ⟨?_, ?_⟩
      · rw [e2] at hb
        exact setBodyRaw_raw req _ b s hb hs
      · rw [e2]
    · have e3 : patchRequest "Login - Success" req =
          setBodyRaw req loginSuccessRaw := by
        unfold patchRequest
        rw [if_neg (by decide), if_neg (by decide), if_pos rfl, if_pos hg]
      rw [e3] at hb
      exact setBodyRaw_raw req _ b s hb hs
    · have e4 : patchRequest "Login - Invalid Credentials" req =
          setBodyRaw req loginInvalidRaw := by
        unfold patchRequest
        rw [if_neg (by decide), if_neg (by decide), if_neg (by decide), if_pos rfl,
          if_pos hg]
      rw [e4] at hb
      exact setBodyRaw_raw req _ b s hb hs

/-- The guarantee `update_requests` establishes at every node it leaves
behind: if the node is a request (not a folder) and its body has a `raw`
text, then a node carrying one of the four dispatch names carries the
corresponding literal. -/
def PostCond (x : Item) : Prop :=
  x.item = none → ∀ r : Request, x.request = some r → ∀ b : Body, r.body = some b →
  ∀ s : String, b.raw = some s →
    (x.name = some "Register User - Success" → s = regSuccessRaw) ∧
    (x.name = some "Register User - Duplicate ID" →
      s = dupIdRaw ∧ r.description = some dupIdDescription) ∧
    (x.name = some "Login - Success" → s = loginSuccessRaw) ∧
    (x.name = some "Login - Invalid Credentials" → s = loginInvalidRaw)

/-- Equation of the walker on a folder node. -/
theorem updateItem_folder (n : Option String) (e : Option (List Event))
    (r : Option Request) (resp : Option (List Unit)) (children : List Item) :
    updateItem (Item.mk n e r resp (some children)) =
      Item.mk n e r resp (some (updateItems children)) :=
  updateItem.eq_1 n e r resp children

/-- Equation of the walker on a request node. -/
theorem updateItem_request (n : Option String) (e : Option (List Event))
    (req : Request) (resp : Option (List Unit)) :
    updateItem (Item.mk n e (some req) resp none) =
      Item.mk n e (some (patchRequest (n.getD "") req)) resp none :=
  updateItem.eq_2 n e req resp

/-- Equation of the walker on a node with neither key. -/
theorem updateItem_other (n : Option String) (e : Option (List Event))
    (resp : Option (List Unit)) :
    updateItem (Item.mk n e none resp none) = Item.mk n e none resp none :=
  updateItem.eq_3 n e resp

/-- Equation of `allItems` on a folder node. -/
theorem allItems_folder (n : Option String) (e : Option (List Event))
    (r : Option Request) (resp : Option (List Unit)) (children : List Item) :
    allItems (Item.mk n e r resp (some children)) =
      Item.mk n e r resp (some children) :: allItemsList children :=
  allItems.eq_1 n e r resp children

/-- Equation of `allItems` on a leaf node. -/
theorem allItems_leaf (n : Option String) (e : Option (List Event))
    (r : Option Request) (resp : Option (List Unit)) :
    allItems (Item.mk n e r resp none) = [Item.mk n e r resp none] :=
  allItems.eq_2 n e r resp

/-- Equation of `allItemsList` on a cons. -/
theorem allItemsList_cons (i : Item) (is : List Item) :
    allItemsList (i :: is) = allItems i ++ allItemsList is :=
  allItemsList.eq_2 i is

/-- A walked request node satisfies `PostCond` (the non-recursive case of
the tree induction). -/
theorem postCond_request (n : Option String) (e : Option (List Event))
    (req : Request) (resp : Option (List Unit)) :
    ∀ x ∈ allItems (updateItem (Item.mk n e (some req) resp none)), PostCond x := by
  intro x hx
  rw [updateItem_request, allItems_leaf] at hx
  have hx' := List.mem_singleton.mp hx
  subst hx'
  intro _ r' hr' b hb s hs
  simp only [Item.request, Option.some.injEq] at hr'
  subst hr'
  have key := patchRequest_raw (n.getD "") req b s hb hs
  simp only [Item.name]
  refine ⟨?_, ?_, ?_, ?_⟩ <;> intro hname <;> subst hname
  · exact key.1 rfl
  · exact key.2.1 rfl
  · exact key.2.2.1 rfl
  · exact key.2.2.2 rfl

/-- A walked node carrying neither key satisfies `PostCond`. -/
theorem postCond_other (n : Option String) (e : Option (List Event))
    (resp : Option (List Unit)) :
    ∀ x ∈ allItems (updateItem (Item.mk n e none resp none)), PostCond x := by
  intro x hx
  rw [updateItem_other, allItems_leaf] at hx
  have hx' := List.mem_singleton.mp hx
  subst hx'
  intro _ r hr
  simp [Item.request] at hr

/-- The head of a walked folder satisfies `PostCond` (it is a folder). -/
theorem postCond_folder_head (n : Option String) (e : Option (List Event))
    (r : Option Request) (resp : Option (List Unit)) (l : List Item) :
    PostCond (Item.mk n e r resp (some l)) := by
  intro hitem
  exact absurd hitem (by simp [Item.item])

mutual

/-- Every node of a tree the walker has processed satisfies `PostCond`. -/
theorem postCond_item : ∀ i : Item, ∀ x ∈ allItems (updateItem i), PostCond x
  | .mk n e r resp (some children) => fun x hx => by
      rw [updateItem_folder, allItems_folder] at hx
      rcases List.mem_cons.mp hx with h | h
      · exact h ▸ postCond_folder_head n e r resp (updateItems children)
      · exact postCond_list children x h
  | .mk n e (some req) resp none => postCond_request n e req resp
  | .mk n e none resp none => postCond_other n e resp

/-- Every node of a forest the walker has processed satisfies `PostCond`. -/
theorem postCond_list : ∀ l : List Item, ∀ x ∈ allItemsList (updateItems l), PostCond x
  | [] => fun x hx => by
      simp [updateItems, allItemsList] at hx
  | i :: is => fun x hx => by
      rw [show updateItems (i :: is) = updateItem i :: updateItems is by
            simp [updateItems],
          allItemsList_cons] at hx
      rcases List.mem_append.mp hx with h | h
      · exact postCond_item i x h
      · exact postCond_list is x h

end

/-- No node of the seeded folder carries one of the four dispatch names. -/
theorem seeded_names :
    ∀ x ∈ allItems seeded_data_folder,
      x.name ≠ some "Register User - Success" ∧
      x.name ≠ some "Register User - Duplicate ID" ∧
      x.name ≠ some "Login - Success" ∧
      x.name ≠ some "Login - Invalid Credentials" := by decide

/-- `PostCond` holds vacuously on the seeded folder's nodes. -/
theorem seeded_postCond : ∀ x ∈ allItems seeded_data_folder, PostCond x := by
  intro x hx _ r _ b _ s _
  obtain ⟨h1, h2, h3, h4⟩ := seeded_names x hx
  exact ⟨fun h => absurd h h1, fun h => absurd h h2,
    fun h => absurd h h3, fun h => absurd h h4⟩

/-- Every node of the fully transformed document satisfies `PostCond`. -/
theorem transform_postCond (d : Document) :
    ∀ x ∈ allItemsList (transform d).item, PostCond x := by
  intro x hx
  have hsplit : allItemsList (transform d).item =
      allItems seeded_data_folder ++ allItemsList (updateItems d.item) := by
    simp [transform, allItemsList]
  rw [hsplit] at hx
  rcases List.mem_append.mp hx with h | h
  · exact seeded_postCond x h
  · exact postCond_list d.item x h

/-- `none = some lit` is impossible even through `getD`. -/
theorem getD_ne (n : Option String) (lit : String) (hlit : lit ≠ "")
    (h : n ≠ some lit) : n.getD "" ≠ lit := by
  cases n with
  | none => exact fun hh => hlit hh.symm
  | some s => exact fun hh => h (by rw [Option.getD] at hh; rw [hh])

/-! ### Claim theorems -/

/-- C1: for every input document, the transformation leaves a top-level
sequence exactly one item longer; the new first item is the group named
"Seeded Data Tests" with exactly eight nested items, and the previously
existing top-level items follow it, index for index in their original
order (each carrying its original name). -/
theorem claim1_seeded_folder_prepended (d : Document) :
    (transform d).item.length = d.item.length + 1 ∧
    (transform d).item.head? = some seeded_data_folder ∧
    seeded_data_folder.name = some "Seeded Data Tests" ∧
    seeded_data_folder.item.map List.length = some 8 ∧
    (transform d).item.tail = updateItems d.item ∧
    ∀ j : Nat, (updateItems d.item)[j]?.map Item.name = d.item[j]?.map Item.name := by
  refine ⟨?_, rfl, rfl, by decide, rfl, ?_⟩
  · simp [transform, updateItems_length]
  · intro j
    rw [updateItems_getElem?]
    cases d.item[j]? with
    | none => rfl
    | some i => simp [updateItem_name]

/-- C2 counterexample: the claim as stated is false.  In the transformed
`c2Doc`, the request item named "Register User - Duplicate ID" still
carries its old description (its request has no body, so the walker
skipped it without setting body or description). -/
theorem claim2_counterexample :
    c2Item ∈ allItemsList (transform c2Doc).item ∧
    c2Item.name = some "Register User - Duplicate ID" ∧
    c2Item.item = none ∧
    c2Item.request = some c2Req ∧
    c2Req.body = none ∧
    c2Req.description = some "old description" ∧
    some "old description" ≠ some dupIdDescription := by decide

/-- C2 (amended): for every request item named
"Register User - Duplicate ID" anywhere in the transformed document tree
whose request has a body with a raw-text field, both the body's raw text
and the description equal the fixed literals. -/
theorem claim2_duplicate_id_patched (d : Document) (x : Item)
    (hx : x ∈ allItemsList (transform d).item)
    (hname : x.name = some "Register User - Duplicate ID")
    (hitem : x.item = none) (r : Request) (hr : x.request = some r)
    (b : Body) (hb : r.body = some b) (s : String) (hs : b.raw = some s) :
    s = dupIdRaw ∧ r.description = some dupIdDescription :=
  (transform_postCond d x hx hitem r hr b hb s hs).2.1 hname

/-- C2 witness: the amended theorem applied to the concrete document
`c2wDoc`. -/
theorem claim2_witness :
    c2wPost ∈ allItemsList (transform c2wDoc).item ∧
    c2wPost.name = some "Register User - Duplicate ID" ∧
    c2wPost.item = none ∧
    c2wPost.request = some c2wPostReq ∧
    c2wPostReq.body = some c2wPostBody ∧
    c2wPostBody.raw = some dupIdRaw ∧
    (dupIdRaw = dupIdRaw ∧ c2wPostReq.description = some dupIdDescription) :=
  ⟨by decide, by decide, by decide, by decide, by decide, by decide,
    claim2_duplicate_id_patched c2wDoc c2wPost (by decide) (by decide) (by decide)
      c2wPostReq (by decide) c2wPostBody (by decide) dupIdRaw (by decide)⟩

/-- C3: for every request item named "Register User - Success" anywhere in
the transformed document tree whose request has a body with a raw-text
field, the raw text equals the fixed literal payload. -/
theorem claim3_register_success_patched (d : Document) (x : Item)
    (hx : x ∈ allItemsList (transform d).item)
    (hname : x.name = some "Register User - Success")
    (hitem : x.item = none) (r : Request) (hr : x.request = some r)
    (b : Body) (hb : r.body = some b) (s : String) (hs : b.raw = some s) :
    s = regSuccessRaw :=
  (transform_postCond d x hx hitem r hr b hb s hs).1 hname

/-- C3 witness: the theorem applied to the concrete document `c3Doc`. -/
theorem claim3_witness :
    c3Post ∈ allItemsList (transform c3Doc).item ∧
    c3Post.name = some "Register User - Success" ∧
    c3Post.item = none ∧
    c3Post.request = some c3PostReq ∧
    c3PostReq.body = some c3PostBody ∧
    c3PostBody.raw = some regSuccessRaw ∧
    regSuccessRaw = regSuccessRaw :=
  ⟨by decide, by decide, by decide, by decide, by decide, by decide,
    claim3_register_success_patched c3Doc c3Post (by decide) (by decide) (by decide)
      c3PostReq (by decide) c3PostBody (by decide) regSuccessRaw (by decide)⟩

/-- C4: a request item whose name is none of the four dispatch literals is
left entirely unchanged by the walker (in particular body and
description). -/
theorem claim4_nonmatching_unchanged (i : Item) (req : Request)
    (hitem : i.item = none) (hreq : i.request = some req)
    (h1 : i.name ≠ some "Register User - Success")
    (h2 : i.name ≠ some "Register User - Duplicate ID")
    (h3 : i.name ≠ some "Login - Success")
    (h4 : i.name ≠ some "Login - Invalid Credentials") :
    updateItem i = i := by
  cases i with
  | mk n e r resp c =>
    simp only [Item.item] at hitem
    simp only [Item.request] at hreq
    simp only [Item.name] at h1 h2 h3 h4
    subst hitem
    subst hreq
    rw [updateItem_request,
      patchRequest_nonmatch _ _ (getD_ne n _ (by decide) h1)
        (getD_ne n _ (by decide) h2) (getD_ne n _ (by decide) h3)
        (getD_ne n _ (by decide) h4)]

/-- C4 witness: the theorem applied to the concrete item `c4Item`. -/
theorem claim4_witness :
    c4Item.item = none ∧
    c4Item.request = some c4Req ∧
    c4Item.name ≠ some "Register User - Success" ∧
    c4Item.name ≠ some "Register User - Duplicate ID" ∧
    c4Item.name ≠ some "Login - Success" ∧
    c4Item.name ≠ some "Login - Invalid Credentials" ∧
    updateItem c4Item = c4Item :=
  ⟨by decide, by decide, by decide, by decide, by decide, by decide,
    claim4_nonmatching_unchanged c4Item c4Req (by decide) (by decide) (by decide)
      (by decide) (by decide) (by decide)⟩

/-- C5: the transformation is not idempotent: after two runs the top-level
sequence starts with two copies of the "Seeded Data Tests" group, and the
number of top-level items of that name has grown by exactly two. -/
theorem claim5_not_idempotent (d : Document) :
    (transform (transform d)).item.take 2 = [seeded_data_folder, seeded_data_folder] ∧
    (transform (transform d)).item.countP seededName =
      d.item.countP seededName + 2 := by
  have hname : ∀ i, seededName (updateItem i) = seededName i := by
    intro i
    simp [seededName, updateItem_name]
  constructor
  · show List.take 2
        (seeded_data_folder :: updateItems (seeded_data_folder :: updateItems d.item)) = _
    rw [updateItems.eq_2, updateItem_seeded]
    rfl
  · show List.countP seededName
        (seeded_data_folder :: updateItems (seeded_data_folder :: updateItems d.item)) = _
    rw [updateItems.eq_2, updateItem_seeded, List.countP_cons, List.countP_cons,
      countP_updateItems seededName hname, countP_updateItems seededName hname]
    have hseed : seededName seeded_data_folder = true := by decide
    simp [hseed]

/-- C6: the write happens only after a successful read and full mutation
pass: on a decode error the file contents are untouched, and on success
the serialized fully-transformed document is written. -/
theorem claim6_no_write_on_error (msg : String) (original : String)
    (ser : Document → String) :
    runScript (Except.error msg) original ser = original ∧
    ∀ d : Document, runScript (Except.ok d) original ser = ser (transform d) :=
  ⟨rfl, fun _ => rfl⟩

/-- C7: a request item carrying one of the four dispatch names whose
request lacks a body, or whose body lacks a raw-text field, is left
entirely unchanged by the walker (the guard silently skips it). -/
theorem claim7_missing_body_skipped (i : Item) (req : Request)
    (hitem : i.item = none) (hreq : i.request = some req)
    (hname : i.name.getD "" ∈ targetNames)
    (hbody : req.body = none ∨ ∃ b, req.body = some b ∧ b.raw = none) :
    updateItem i = i := by
  cases i with
  | mk n e r resp c =>
    simp only [Item.item] at hitem
    simp only [Item.request] at hreq
    subst hitem
    subst hreq
    rw [updateItem_request, patchRequest_noRaw _ _ (hasRaw_eq_false req hbody)]

/-- C7 witness: the theorem applied to the concrete item `c7Item`. -/
theorem claim7_witness :
    c7Item.item = none ∧
    c7Item.request = some c7Req ∧
    c7Item.name.getD "" ∈ targetNames ∧
    (c7Req.body = none ∨ ∃ b, c7Req.body = some b ∧ b.raw = none) ∧
    updateItem c7Item = c7Item :=
  ⟨by decide, by decide, by decide, Or.inl rfl,
    claim7_missing_body_skipped c7Item c7Req (by decide) (by decide) (by decide)
      (Or.inl rfl)⟩

/-- C8: of the eight request items in the seeded folder, exactly the two
login items carry the token-extraction test script (the script that reads
`data.token` from the JSON response and stores it as `auth_token`); the
other six carry no event at all. -/
theorem claim8_token_scripts :
    seeded_data_folder.item.map List.length = some 8 ∧
    seeded_data_folder.item.map (fun l => l.countP hasTokenScript) = some 2 ∧
    seeded_data_folder.item.map (fun l => (l.filter hasTokenScript).map Item.name) =
      some [some "Login as john.doe", some "Login as jane.smith"] ∧
    seeded_data_folder.item.map
        (fun l => (l.filter (fun i => ! hasTokenScript i)).length) = some 6 ∧
    seeded_data_folder.item.map
        (fun l => (l.filter (fun i => ! hasTokenScript i)).all
          (fun i => i.event.isNone)) = some true := by decide

/-- C9: the `'item' in item` check precedes the `'request' in item` check:
a node carrying both keys is treated as a folder, so its children are
walked but its own request is never rewritten, whatever its name. -/
theorem claim9_group_precedence (n : Option String) (e : Option (List Event))
    (r : Option Request) (resp : Option (List Unit)) (cs : List Item) :
    updateItem (Item.mk n e r resp (some cs)) =
      Item.mk n e r resp (some (updateItems cs)) ∧
    (updateItem (Item.mk n e r resp (some cs))).request = r :=
  ⟨updateItem_folder n e r resp cs, by rw [updateItem_folder]; rfl⟩

/-- C10 counterexample: the claim as stated is false.  `c10Folder` lacks a
name, yet the walker changes it: it is a folder, and its nested
"Login - Success" request gets patched. -/
theorem claim10_counterexample :
    c10Folder.name = none ∧ updateItem c10Folder ≠ c10Folder := by decide

/-- C10 (amended): an item that lacks a name field and has no nested item
sequence never makes the walker fail; its name is read as the empty
string, which matches none of the four dispatch names, so the item is
left unchanged. -/
theorem claim10_nameless_request_unchanged (e : Option (List Event))
    (r : Option Request) (resp : Option (List Unit)) :
    updateItem (Item.mk none e r resp none) = Item.mk none e r resp none := by
  cases r with
  | none => exact updateItem_other none e resp
  | some req =>
    rw [updateItem_request,
      patchRequest_nonmatch _ req (by decide) (by decide) (by decide) (by decide)]
